import Mathlib

/-!
Verification of the JSON-RPC dispatcher of `src/server.py` (secret-text MCP
server).  The dispatcher `handle_mcp_request` receives a decoded JSON object
(a Python `dict`), routes on the `"method"` field to one of three behaviors
(`initialize`, `tools/list`, `tools/call`) and produces a JSON-RPC response
envelope, converting every exception raised inside the `try` block into a
`-32603` error envelope.

JSON values are modelled by the inductive type `Json`.  Python dictionaries
decoded from JSON objects are association lists `List (String × Json)`; every
read in the source goes through `dict.get`, which is modelled by `dictGet` /
`dictGetD`.  JSON numbers are modelled as integers (the claims only touch
integer ids and codes).  A Python exception is an `Except.error` carrying the
string that `str(e)` produces.
-/

/-- A decoded JSON value.  `obj` keeps the key order of the underlying
Python `dict`; lookups take the first matching key. -/
inductive Json where
  | null : Json
  | bool : Bool → Json
  | num : Int → Json
  | str : String → Json
  | arr : List Json → Json
  | obj : List (String × Json) → Json

/-- A single-quote character, used when rendering Python `str()` / `repr()`
output such as exception messages. -/
def pyQuote : String := (Char.ofNat 39).toString

/-- Python `repr()` of a decoded JSON value (used by `str()` inside
containers): `None`, `True`/`False`, decimal integers, quoted strings,
`[...]` lists and `{...}` dicts. -/
def pyRepr : Json → String
  | Json.null => "None"
  | Json.bool true => "True"
  | Json.bool false => "False"
  | Json.num n => toString n
  | Json.str s => pyQuote ++ s ++ pyQuote
  | Json.arr xs => "[" ++ String.intercalate ", " (xs.attach.map (fun x => pyRepr x.1)) ++ "]"
  | Json.obj kvs => "\x7b" ++ String.intercalate ", "
      (kvs.attach.map (fun kv => pyQuote ++ kv.1.1 ++ pyQuote ++ ": " ++ pyRepr kv.1.2)) ++ "\x7d"
decreasing_by
  · have := List.sizeOf_lt_of_mem x.2; simp at this ⊢; omega
  · have h1 := List.sizeOf_lt_of_mem kv.2
    obtain ⟨⟨k, v⟩, hm⟩ := kv
    simp at h1 ⊢
    omega

/-- Python `str()` of a decoded JSON value, as used by f-string
interpolation (`f"Method not found: {method}"`, `f"Unknown tool: {name}"`). -/
def pyStr : Json → String
  | Json.str s => s
  | v => pyRepr v

/-- Python `v == "s"` for a decoded JSON value `v` against a string
literal: true exactly when `v` is that string. -/
def Json.isStr : Json → String → Bool
  | Json.str t, s => t == s
  | _, _ => false

/-- Python `type(v).__name__` for a decoded JSON value, used in
`AttributeError` messages. -/
def pyTypeName : Json → String
  | Json.null => "NoneType"
  | Json.bool _ => "bool"
  | Json.num _ => "int"
  | Json.str _ => "str"
  | Json.arr _ => "list"
  | Json.obj _ => "dict"

/-- Python `d.get(k)` on a decoded JSON object (returns `None` when the key
is absent). -/
def dictGet (kvs : List (String × Json)) (k : String) : Json :=
  (kvs.lookup k).getD Json.null

/-- Python `d.get(k, default)` on a decoded JSON object. -/
def dictGetD (kvs : List (String × Json)) (k : String) (d : Json) : Json :=
  (kvs.lookup k).getD d

/-- Python `v.get(k, default)` where `v` is an arbitrary value: succeeds when
`v` is a dict, raises `AttributeError` otherwise (modelled as `Except.error`
carrying the `str(e)` text of the exception). -/
def pyObjGet (v : Json) (k : String) (d : Json) : Except String Json :=
  match v with
  | Json.obj kvs => Except.ok ((kvs.lookup k).getD d)
  | _ => Except.error (pyQuote ++ pyTypeName v ++ pyQuote ++
      " object has no attribute " ++ pyQuote ++ "get" ++ pyQuote)

/-- The one capability descriptor returned by `handle_list_tools`
(src/server.py lines 30–44), as serialized by the surrounding dispatcher
(`tool.model_dump()`); its shape follows the spec's Capability-descriptor
data model `\x7bname, description, inputSchema\x7d`. -/
def tool_descriptor : Json :=
  Json.obj
    [("name", Json.str "get_secret_text"),
     ("description", Json.str "Returns a secret text message"),
     ("inputSchema", Json.obj
       [("type", Json.str "object"),
        ("properties", Json.obj []),
        ("required", Json.arr [])])]

/-- `handle_list_tools` (src/server.py lines 30–44): returns the one-element
tool list, already in serialized form. -/
def handle_list_tools : List Json := [tool_descriptor]

/-- `handle_call_tool` (src/server.py lines 46–61): on `"get_secret_text"`
returns the one-element content list (serialized per the spec's Content-item
model `\x7btype, text\x7d`); on any other name raises
`ValueError(f"Unknown tool: \x7bname\x7d")`, modelled as `Except.error`. -/
def handle_call_tool (name : Json) (_arguments : Json) : Except String (List Json) :=
  if name.isStr "get_secret_text" then
    Except.ok [Json.obj
      [("type", Json.str "text"),
       ("text", Json.str "Hello World! The secret text is: ANTHROPIC")]]
  else
    Except.error ("Unknown tool: " ++ pyStr name)

/-- Body of the `try` block of `handle_mcp_request` (src/server.py lines
72–116): route on `method` and build the response envelope; a raised
exception is an `Except.error`. -/
def dispatchTry (method params request_id : Json) : Except String Json :=
  if method.isStr "initialize" then
    Except.ok (Json.obj
      [("jsonrpc", Json.str "2.0"), ("id", request_id),
       ("result", Json.obj
         [("protocolVersion", Json.str "2025-06-18"),
          ("capabilities", Json.obj [("tools", Json.obj [])]),
          ("serverInfo", Json.obj
            [("name", Json.str "secret-text-server"),
             ("version", Json.str "1.0.0")])])])
  else if method.isStr "tools/list" then
    Except.ok (Json.obj
      [("jsonrpc", Json.str "2.0"), ("id", request_id),
       ("result", Json.obj [("tools", Json.arr handle_list_tools)])])
  else if method.isStr "tools/call" then
    match pyObjGet params "name" Json.null with
    | Except.error e => Except.error e
    | Except.ok tool_name =>
      match pyObjGet params "arguments" (Json.obj []) with
      | Except.error e => Except.error e
      | Except.ok args =>
        match handle_call_tool tool_name args with
        | Except.error e => Except.error e
        | Except.ok result =>
          Except.ok (Json.obj
            [("jsonrpc", Json.str "2.0"), ("id", request_id),
             ("result", Json.obj [("content", Json.arr result)])])
  else
    Except.ok (Json.obj
      [("jsonrpc", Json.str "2.0"), ("id", request_id),
       ("error", Json.obj
         [("code", Json.num (-32601)),
          ("message", Json.str ("Method not found: " ++ pyStr method))])])

/-- `handle_mcp_request` (src/server.py lines 64–128): extract `method`,
`params` (default empty dict) and `id` with `dict.get`, run the `try` body,
and convert any exception into a `-32603` error envelope carrying `str(e)`. -/
def handle_mcp_request (request_data : List (String × Json)) : Json :=
  let method := dictGet request_data "method"
  let params := dictGetD request_data "params" (Json.obj [])
  let request_id := dictGet request_data "id"
  match dispatchTry method params request_id with
  | Except.ok response => response
  | Except.error e =>
    Json.obj
      [("jsonrpc", Json.str "2.0"), ("id", request_id),
       ("error", Json.obj
         [("code", Json.num (-32603)), ("message", Json.str e)])]

/-- A whole service run: each incoming request is handled independently by
`handle_mcp_request`; the dispatcher touches no mutable state
(src/server.py lines 64–128 read only their argument and process-wide
constants), so the trace of responses is the pointwise image of the trace
of requests. -/
def serve (requests : List (List (String × Json))) : List Json :=
  requests.map handle_mcp_request

/-! Helper lemmas about the shape of every response envelope. -/

/-- Every branch of the `try` body yields either a `result` envelope, an
`error` envelope, or raises; in the first two cases the envelope is exactly
`\x7bjsonrpc, id, result|error\x7d` with the extracted id. -/
theorem dispatchTry_shape (method params rid : Json) :
    (∃ v, dispatchTry method params rid =
        Except.ok (Json.obj
          [("jsonrpc", Json.str "2.0"), ("id", rid), ("result", v)])) ∨
    (∃ v, dispatchTry method params rid =
        Except.ok (Json.obj
          [("jsonrpc", Json.str "2.0"), ("id", rid), ("error", v)])) ∨
    (∃ e, dispatchTry method params rid = Except.error e) := by
  unfold dispatchTry
  repeat' split
  all_goals first
    | (left; exact ⟨_, rfl⟩)
    | (right; left; exact ⟨_, rfl⟩)
    | (right; right; exact ⟨_, rfl⟩)

/-- Every response of the dispatcher is an object
`[jsonrpc, id, result|error]` echoing the extracted request id. -/
theorem handle_mcp_request_shape (kvs : List (String × Json)) :
    ∃ k v, (k = "result" ∨ k = "error") ∧
      handle_mcp_request kvs =
        Json.obj [("jsonrpc", Json.str "2.0"), ("id", dictGet kvs "id"), (k, v)] := by
  unfold handle_mcp_request
  rcases dispatchTry_shape (dictGet kvs "method")
      (dictGetD kvs "params" (Json.obj [])) (dictGet kvs "id") with
    ⟨v, h⟩ | ⟨v, h⟩ | ⟨e, h⟩
  · exact ⟨"result", v, Or.inl rfl, by simp [h]⟩
  · exact ⟨"error", v, Or.inr rfl, by simp [h]⟩
  · exact ⟨"error",
      Json.obj [("code", Json.num (-32603)), ("message", Json.str e)],
      Or.inr rfl, by simp [h]⟩

/-- C1: every request mapping with method `"tools/call"` and
`params.name == "get_secret_text"` gets a success envelope whose
`result.content` is the one fixed text content item, regardless of
`params.arguments`, with the request id echoed. -/
theorem mcp_C1 (kvs pkvs : List (String × Json))
    (hm : kvs.lookup "method" = some (Json.str "tools/call"))
    (hp : kvs.lookup "params" = some (Json.obj pkvs))
    (hn : pkvs.lookup "name" = some (Json.str "get_secret_text")) :
    handle_mcp_request kvs =
      Json.obj
        [("jsonrpc", Json.str "2.0"), ("id", dictGet kvs "id"),
         ("result", Json.obj [("content", Json.arr
           [Json.obj [("type", Json.str "text"),
             ("text", Json.str "Hello World! The secret text is: ANTHROPIC")]])])] := by
  unfold handle_mcp_request dispatchTry pyObjGet handle_call_tool
  simp [dictGet, dictGetD, hm, hp, hn, Json.isStr]

/-- C1 witness: the end-to-end example of the spec, with nonempty extra
arguments to exhibit independence from `params.arguments`. -/
theorem mcp_C1_witness :
    handle_mcp_request
      [("jsonrpc", Json.str "2.0"), ("id", Json.num 1),
       ("method", Json.str "tools/call"),
       ("params", Json.obj
         [("name", Json.str "get_secret_text"), ("arguments", Json.obj [])])] =
    Json.obj
      [("jsonrpc", Json.str "2.0"), ("id", Json.num 1),
       ("result", Json.obj [("content", Json.arr
         [Json.obj [("type", Json.str "text"),
           ("text", Json.str "Hello World! The secret text is: ANTHROPIC")]])])] :=
  mcp_C1 _ [("name", Json.str "get_secret_text"), ("arguments", Json.obj [])]
    rfl rfl rfl

/-- C2: every request mapping whose method value is none of the three
recognized strings gets the `-32601` error envelope whose message appends
the Python rendering of the offending method value (so the message contains
the method name), with the request id echoed. -/
theorem mcp_C2 (kvs : List (String × Json)) (m : Json)
    (hm : kvs.lookup "method" = some m)
    (h1 : m.isStr "initialize" = false)
    (h2 : m.isStr "tools/list" = false)
    (h3 : m.isStr "tools/call" = false) :
    handle_mcp_request kvs =
      Json.obj
        [("jsonrpc", Json.str "2.0"), ("id", dictGet kvs "id"),
         ("error", Json.obj
           [("code", Json.num (-32601)),
            ("message", Json.str ("Method not found: " ++ pyStr m))])] := by
  unfold handle_mcp_request dispatchTry
  simp [dictGet, dictGetD, hm, h1, h2, h3]

/-- C2 witness: the `ping` end-to-end example of the spec. -/
theorem mcp_C2_witness :
    handle_mcp_request
      [("jsonrpc", Json.str "2.0"), ("id", Json.num 2),
       ("method", Json.str "ping")] =
    Json.obj
      [("jsonrpc", Json.str "2.0"), ("id", Json.num 2),
       ("error", Json.obj
         [("code", Json.num (-32601)),
          ("message", Json.str "Method not found: ping")])] :=
  mcp_C2 _ (Json.str "ping") rfl rfl rfl rfl

/-- C3: every request mapping with method `"tools/call"` whose `params.name`
is any value other than `"get_secret_text"` gets a response carrying an
`error` object with code `-32603` and a message naming the unknown
capability, and no `result` key; the dispatcher (a total function here)
returns this envelope instead of letting the raised `ValueError` escape. -/
theorem mcp_C3 (kvs pkvs : List (String × Json)) (v : Json)
    (hm : kvs.lookup "method" = some (Json.str "tools/call"))
    (hp : kvs.lookup "params" = some (Json.obj pkvs))
    (hn : pkvs.lookup "name" = some v)
    (hv : v.isStr "get_secret_text" = false) :
    ∃ o, handle_mcp_request kvs = Json.obj o ∧
      o.lookup "result" = none ∧
      o.lookup "error" = some (Json.obj
        [("code", Json.num (-32603)),
         ("message", Json.str ("Unknown tool: " ++ pyStr v))]) := by
  have h : handle_mcp_request kvs =
      Json.obj
        [("jsonrpc", Json.str "2.0"), ("id", dictGet kvs "id"),
         ("error", Json.obj
           [("code", Json.num (-32603)),
            ("message", Json.str ("Unknown tool: " ++ pyStr v))])] := by
    have hcall : ∀ x, handle_call_tool v x =
        Except.error ("Unknown tool: " ++ pyStr v) := by
      intro x; unfold handle_call_tool; rw [hv]; simp
    unfold handle_mcp_request dispatchTry pyObjGet
    simp [dictGet, dictGetD, hm, hp, hn, hcall, Json.isStr]
  exact ⟨_, h, by simp [List.lookup], by simp [List.lookup]⟩

/-- C3 witness: calling the unknown tool `"other_tool"`. -/
theorem mcp_C3_witness :
    ∃ o, handle_mcp_request
        [("id", Json.num 8), ("method", Json.str "tools/call"),
         ("params", Json.obj [("name", Json.str "other_tool")])] = Json.obj o ∧
      o.lookup "result" = none ∧
      o.lookup "error" = some (Json.obj
        [("code", Json.num (-32603)),
         ("message", Json.str "Unknown tool: other_tool")]) :=
  mcp_C3 _ [("name", Json.str "other_tool")] (Json.str "other_tool")
    rfl rfl rfl rfl

/-- C4: whenever the body of the `try` block raises (for instance when
`params` is present but not a mapping, so `params.get` faults), the
dispatcher catches the exception and returns the `-32603` error envelope
carrying `str(e)`, echoing the request id that was extracted before the
fault; nothing propagates out of `handle_mcp_request`. -/
theorem mcp_C4 (kvs : List (String × Json)) (e : String)
    (h : dispatchTry (dictGet kvs "method")
        (dictGetD kvs "params" (Json.obj [])) (dictGet kvs "id") =
        Except.error e) :
    handle_mcp_request kvs =
      Json.obj
        [("jsonrpc", Json.str "2.0"), ("id", dictGet kvs "id"),
         ("error", Json.obj
           [("code", Json.num (-32603)), ("message", Json.str e)])] := by
  unfold handle_mcp_request
  simp [h]

/-- C4 witness: a `tools/call` request whose `params` is the number 5, so
`params.get("name")` raises `AttributeError`; the id 7 extracted before the
fault is echoed in the `-32603` envelope. -/
theorem mcp_C4_witness :
    dispatchTry
        (dictGet [("id", Json.num 7), ("method", Json.str "tools/call"),
          ("params", Json.num 5)] "method")
        (dictGetD [("id", Json.num 7), ("method", Json.str "tools/call"),
          ("params", Json.num 5)] "params" (Json.obj []))
        (dictGet [("id", Json.num 7), ("method", Json.str "tools/call"),
          ("params", Json.num 5)] "id") =
      Except.error (pyQuote ++ "int" ++ pyQuote ++
        " object has no attribute " ++ pyQuote ++ "get" ++ pyQuote) ∧
    handle_mcp_request
        [("id", Json.num 7), ("method", Json.str "tools/call"),
         ("params", Json.num 5)] =
      Json.obj
        [("jsonrpc", Json.str "2.0"), ("id", Json.num 7),
         ("error", Json.obj
           [("code", Json.num (-32603)),
            ("message", Json.str (pyQuote ++ "int" ++ pyQuote ++
              " object has no attribute " ++ pyQuote ++ "get" ++ pyQuote))])] :=
  ⟨rfl, mcp_C4 _ _ rfl⟩

/-- C5: every request mapping containing an `id` key gets its exact id value
echoed in the response object, whichever branch produced it (the three
recognized methods, the method-not-found branch, or the exception branch). -/
theorem mcp_C5 (kvs : List (String × Json)) (v : Json)
    (hid : kvs.lookup "id" = some v) :
    ∃ o, handle_mcp_request kvs = Json.obj o ∧ o.lookup "id" = some v := by
  obtain ⟨k, w, hk, h⟩ := handle_mcp_request_shape kvs
  exact ⟨_, h, by simp [List.lookup, dictGet, hid]⟩

/-- C5 witness: an unrecognized-method request with id 42 keeps id 42 in the
response. -/
theorem mcp_C5_witness :
    ∃ o, handle_mcp_request
        [("id", Json.num 42), ("method", Json.str "shutdown")] = Json.obj o ∧
      o.lookup "id" = some (Json.num 42) :=
  mcp_C5 _ (Json.num 42) rfl

/-- C6: every request mapping with method `"initialize"` gets the fixed
success envelope: protocol version `"2025-06-18"`, a capabilities mapping
with a `tools` marker, and server identity `secret-text-server` / `1.0.0`,
identical whatever `params` holds (the branch never reads `params`), with
the request id echoed; the embedding is a pure function, so there are no
side effects. -/
theorem mcp_C6 (kvs : List (String × Json))
    (hm : kvs.lookup "method" = some (Json.str "initialize")) :
    handle_mcp_request kvs =
      Json.obj
        [("jsonrpc", Json.str "2.0"), ("id", dictGet kvs "id"),
         ("result", Json.obj
           [("protocolVersion", Json.str "2025-06-18"),
            ("capabilities", Json.obj [("tools", Json.obj [])]),
            ("serverInfo", Json.obj
              [("name", Json.str "secret-text-server"),
               ("version", Json.str "1.0.0")])])] := by
  unfold handle_mcp_request dispatchTry
  simp [dictGet, dictGetD, hm, Json.isStr]

/-- C6 witness: an `initialize` request whose `params` is the number 3 (not
even a mapping) still gets the fixed initialize result. -/
theorem mcp_C6_witness :
    handle_mcp_request
      [("id", Json.num 5), ("method", Json.str "initialize"),
       ("params", Json.num 3)] =
    Json.obj
      [("jsonrpc", Json.str "2.0"), ("id", Json.num 5),
       ("result", Json.obj
         [("protocolVersion", Json.str "2025-06-18"),
          ("capabilities", Json.obj [("tools", Json.obj [])]),
          ("serverInfo", Json.obj
            [("name", Json.str "secret-text-server"),
             ("version", Json.str "1.0.0")])])] :=
  mcp_C6 _ rfl

/-- C7: every request mapping with method `"tools/list"` gets a success
envelope whose `result.tools` is the one-element sequence holding exactly
the static `get_secret_text` capability descriptor; the content is the same
constant on every call. -/
theorem mcp_C7 (kvs : List (String × Json))
    (hm : kvs.lookup "method" = some (Json.str "tools/list")) :
    handle_mcp_request kvs =
      Json.obj
        [("jsonrpc", Json.str "2.0"), ("id", dictGet kvs "id"),
         ("result", Json.obj [("tools", Json.arr [tool_descriptor])])] ∧
    tool_descriptor = Json.obj
      [("name", Json.str "get_secret_text"),
       ("description", Json.str "Returns a secret text message"),
       ("inputSchema", Json.obj
         [("type", Json.str "object"),
          ("properties", Json.obj []),
          ("required", Json.arr [])])] := by
  refine ⟨?_, rfl⟩
  unfold handle_mcp_request dispatchTry
  simp [dictGet, dictGetD, hm, Json.isStr, handle_list_tools]

/-- C7 witness: a concrete `tools/list` request. -/
theorem mcp_C7_witness :
    handle_mcp_request [("id", Json.num 3), ("method", Json.str "tools/list")] =
      Json.obj
        [("jsonrpc", Json.str "2.0"), ("id", Json.num 3),
         ("result", Json.obj [("tools", Json.arr [tool_descriptor])])] ∧
    tool_descriptor = Json.obj
      [("name", Json.str "get_secret_text"),
       ("description", Json.str "Returns a secret text message"),
       ("inputSchema", Json.obj
         [("type", Json.str "object"),
          ("properties", Json.obj []),
          ("required", Json.arr [])])] :=
  mcp_C7 _ rfl

/-- C8: every request mapping lacking a `method` key gets an error envelope
(`dict.get` yields `None`, which matches no recognized method, so the
`-32601` branch fires with message `"Method not found: None"`) and no
`result`. -/
theorem mcp_C8 (kvs : List (String × Json))
    (hm : kvs.lookup "method" = none) :
    ∃ o, handle_mcp_request kvs = Json.obj o ∧
      o.lookup "result" = none ∧
      o.lookup "error" = some (Json.obj
        [("code", Json.num (-32601)),
         ("message", Json.str "Method not found: None")]) := by
  have h : handle_mcp_request kvs =
      Json.obj
        [("jsonrpc", Json.str "2.0"), ("id", dictGet kvs "id"),
         ("error", Json.obj
           [("code", Json.num (-32601)),
            ("message", Json.str "Method not found: None")])] := by
    unfold handle_mcp_request dispatchTry
    simp [dictGet, dictGetD, hm, Json.isStr, pyStr, pyRepr]
  exact ⟨_, h, by simp [List.lookup], by simp [List.lookup]⟩

/-- C8 witness: a request carrying only an id. -/
theorem mcp_C8_witness :
    ∃ o, handle_mcp_request [("id", Json.num 9)] = Json.obj o ∧
      o.lookup "result" = none ∧
      o.lookup "error" = some (Json.obj
        [("code", Json.num (-32601)),
         ("message", Json.str "Method not found: None")]) :=
  mcp_C8 _ rfl

/-- C9: the dispatcher is stateless: over any trace of requests, two calls
with equal request mappings — in any positions, with anything interleaved —
produce equal responses, and each response is determined by its own request
alone. -/
theorem mcp_C9 (reqs : List (List (String × Json))) (i j : Nat)
    (r : List (String × Json))
    (hi : reqs[i]? = some r) (hj : reqs[j]? = some r) :
    (serve reqs)[i]? = (serve reqs)[j]? ∧
    (serve reqs)[i]? = some (handle_mcp_request r) := by
  simp [serve, hi, hj]

/-- C9 witness: the first and third requests of a three-request trace are
equal and get equal responses despite the differing request in between. -/
theorem mcp_C9_witness :
    (serve [[("method", Json.str "initialize")],
            [("id", Json.num 1), ("method", Json.str "ping")],
            [("method", Json.str "initialize")]])[0]? =
      (serve [[("method", Json.str "initialize")],
              [("id", Json.num 1), ("method", Json.str "ping")],
              [("method", Json.str "initialize")]])[2]? ∧
    (serve [[("method", Json.str "initialize")],
            [("id", Json.num 1), ("method", Json.str "ping")],
            [("method", Json.str "initialize")]])[0]? =
      some (handle_mcp_request [("method", Json.str "initialize")]) :=
  mcp_C9 _ 0 2 [("method", Json.str "initialize")] rfl rfl

/-- C10: every response is a well-formed JSON-RPC envelope: an object with
`jsonrpc == "2.0"`, an `id` key always present (holding `dict.get`'s value,
which is `null` exactly when the request has no id), and exactly one of
`result` / `error`. -/
theorem mcp_C10 (kvs : List (String × Json)) :
    ∃ o, handle_mcp_request kvs = Json.obj o ∧
      o.lookup "jsonrpc" = some (Json.str "2.0") ∧
      o.lookup "id" = some (dictGet kvs "id") ∧
      (((o.lookup "result").isSome = true ∧ o.lookup "error" = none) ∨
        (o.lookup "result" = none ∧ (o.lookup "error").isSome = true)) := by
  obtain ⟨k, v, hk, h⟩ := handle_mcp_request_shape kvs
  refine ⟨_, h, by simp [List.lookup], by simp [List.lookup], ?_⟩
  rcases hk with rfl | rfl
  · left; exact ⟨by simp [List.lookup], by simp [List.lookup]⟩
  · right; exact ⟨by simp [List.lookup], by simp [List.lookup]⟩
